import Mathlib

/-!
Shallow embedding of the mender-mcu OTA update agent core
(`src/core/src/mender-utils.c`, `src/core/src/mender-api.c`,
`src/core/src/mender-artifact-download.c`).

C strings are modelled as `List Char` (no interior NUL) or `String`;
nullable `char *` pointers are modelled as `Option`. Heap allocation is
assumed to succeed. Where a C expression is undefined behaviour (e.g.
`strdup(NULL)`), the embedding returns `none` of an outer `Option`, and
theorems carry hypotheses excluding those inputs.
-/

/-- Result codes of `mender_err_t` used by the embedded functions:
`MENDER_OK`, `MENDER_FAIL`, `MENDER_NOT_FOUND`. -/
inductive mender_err where
  | ok
  | fail
  | notFound
deriving DecidableEq

/-- Shallow model of a cJSON tree. `cJSON_Parse` failure is represented by
`Option cJSON = none` at use sites. -/
inductive cJSON where
  | null
  | boolean (b : Bool)
  | num (n : Int)
  | str (s : String)
  | arr (items : List cJSON)
  | obj (fields : List (String × cJSON))

/-- The case-insensitive member-name comparison used by
`cJSON_GetObjectItem` (`case_insensitive_strcmp`). -/
def cJSON_strcasecmp_eq (a b : String) : Bool :=
  a.data.map Char.toLower == b.data.map Char.toLower

/-- `cJSON_GetObjectItem`: case-insensitive lookup of a member of an object;
returns `none` (NULL) for non-objects or missing names. -/
def cJSON_GetObjectItem (js : cJSON) (name : String) : Option cJSON :=
  match js with
  | cJSON.obj fields => (fields.find? (fun f => cJSON_strcasecmp_eq f.1 name)).map (fun f => f.2)
  | _ => none

/-- `cJSON_GetStringValue`: the `valuestring` of a string node, NULL otherwise. -/
def cJSON_GetStringValue : cJSON → Option String
  | cJSON.str s => some s
  | _ => none

/-- `cJSON_IsArray`. -/
def cJSON_IsArray : cJSON → Bool
  | cJSON.arr _ => true
  | _ => false

/-! ## mender-utils.c: strbeginwith / strendwith (claim C10) -/

/-- `strncmp(s1, s2, strlen(s2)) == 0`: `s2` is compared against the start of
`s1`; if `s1` ends first the comparison of `'\0'` against the next `s2`
character fails. -/
def strncmpPrefixEq : List Char → List Char → Bool
  | _, [] => true
  | [], _ :: _ => false
  | c1 :: t1, c2 :: t2 => c1 == c2 && strncmpPrefixEq t1 t2

/-- `mender_utils_strbeginwith` (mender-utils.c:122): NULL-checks both
arguments, then `strncmp(s1, s2, strlen(s2)) == 0`. -/
def mender_utils_strbeginwith : Option (List Char) → Option (List Char) → Bool
  | none, _ => false
  | _, none => false
  | some s1, some s2 => strncmpPrefixEq s1 s2

/-- `mender_utils_strendwith` (mender-utils.c:134): NULL-checks both
arguments, then `strncmp(s1 + strlen(s1) - strlen(s2), s2, strlen(s2)) == 0`.
When `strlen(s2) > strlen(s1)` the pointer arithmetic underflows the buffer:
undefined behaviour, modelled as `none`. -/
def mender_utils_strendwith : Option (List Char) → Option (List Char) → Option Bool
  | none, _ => some false
  | _, none => some false
  | some s1, some s2 =>
    if s2.length ≤ s1.length then some (strncmpPrefixEq (s1.drop (s1.length - s2.length)) s2)
    else none

/-! ## mender-api.c: session token and request construction (claims C3, C4) -/

/-- HTTP methods used by the client. -/
inductive mender_http_method where
  | GET
  | POST
  | PUT
deriving DecidableEq

/-- The argument tuple the api layer hands to `mender_http_perform`
(token, path, method, payload, signature). -/
structure mender_http_perform_args where
  jwt : Option String
  path : String
  method : mender_http_method
  payload : Option String
  signature : Option String
deriving DecidableEq

def MENDER_API_PATH_POST_AUTHENTICATION_REQUESTS : String :=
  "/api/devices/v1/authentication/auth_requests"

def MENDER_API_PATH_GET_NEXT_DEPLOYMENT : String :=
  "/api/devices/v1/deployments/device/deployments/next"

def MENDER_API_PATH_POST_NEXT_DEPLOYMENT_V2 : String :=
  "/api/devices/v2/deployments/device/deployments/next"

/-- First part of `MENDER_API_PATH_PUT_DEPLOYMENT_STATUS`, whose `%s` hole is
filled with the deployment id by `snprintf`. -/
def MENDER_API_PATH_PUT_DEPLOYMENT_STATUS_PRE : String :=
  "/api/devices/v1/deployments/device/deployments/"

def MENDER_API_PATH_PUT_DEPLOYMENT_STATUS_POST : String := "/status"

def MENDER_API_PATH_PUT_DEVICE_ATTRIBUTES : String :=
  "/api/devices/v1/inventory/device/attributes"

/-- `mender_api_is_authenticated` (mender-api.c:111): the token pointer is
non-NULL. -/
def mender_api_is_authenticated (mender_api_jwt : Option String) : Bool :=
  mender_api_jwt.isSome

/-- The `mender_http_perform` call of `mender_api_perform_authentication`
(mender-api.c:179): NULL token, POST, signed payload. -/
def mender_api_perform_authentication_request (payload signature : String) :
    mender_http_perform_args :=
  ⟨none, MENDER_API_PATH_POST_AUTHENTICATION_REQUESTS, mender_http_method.POST,
    some payload, some signature⟩

/-- The `mender_http_perform` call of `api_check_for_deployment_v2`
(mender-api.c:283): stored token, v2 path, POST. -/
def api_check_for_deployment_v2_request (mender_api_jwt : Option String) (payload : String) :
    mender_http_perform_args :=
  ⟨mender_api_jwt, MENDER_API_PATH_POST_NEXT_DEPLOYMENT_V2, mender_http_method.POST,
    some payload, none⟩

/-- The `mender_http_perform` call of `api_check_for_deployment_v1`
(mender-api.c:327): stored token, v1 path with query parameters, GET. -/
def api_check_for_deployment_v1_request (mender_api_jwt : Option String)
    (artifactName deviceType : String) : mender_http_perform_args :=
  ⟨mender_api_jwt,
    MENDER_API_PATH_GET_NEXT_DEPLOYMENT ++ "?artifact_name=" ++ artifactName
      ++ "&device_type=" ++ deviceType,
    mender_http_method.GET, none, none⟩

/-- The `mender_http_perform` call of `mender_api_publish_deployment_status`
(mender-api.c:493): stored token, status path for the id, PUT. -/
def mender_api_publish_deployment_status_request (mender_api_jwt : Option String)
    (id payload : String) : mender_http_perform_args :=
  ⟨mender_api_jwt,
    MENDER_API_PATH_PUT_DEPLOYMENT_STATUS_PRE ++ id ++ MENDER_API_PATH_PUT_DEPLOYMENT_STATUS_POST,
    mender_http_method.PUT, some payload, none⟩

/-- The `mender_http_perform` call of `mender_api_publish_inventory_data`
(mender-api.c:614): stored token, attributes path, PUT. -/
def mender_api_publish_inventory_data_request (mender_api_jwt : Option String)
    (payload : String) : mender_http_perform_args :=
  ⟨mender_api_jwt, MENDER_API_PATH_PUT_DEVICE_ATTRIBUTES, mender_http_method.PUT,
    some payload, none⟩

/-- The `mender_http_perform` call of `mender_api_download_artifact`
(mender-api.c:528): NULL token, the artifact URI, GET, no payload. -/
def mender_api_download_artifact_request (uri : String) : mender_http_perform_args :=
  ⟨none, uri, mender_http_method.GET, none, none⟩

/-- Status treatment of `mender_api_perform_authentication`
(mender-api.c:193-211): on 200 a NULL response is a failure, otherwise the
previous token is freed and the response body is stored verbatim; any other
status is a failure and leaves the token as it was. Returns the new value of
`mender_api_jwt` and the result code. -/
def mender_api_perform_authentication_treatment (status : Nat) (response : Option String)
    (mender_api_jwt : Option String) : Option String × mender_err :=
  if status = 200 then
    match response with
    | none => (mender_api_jwt, mender_err.fail)
    | some body => (some body, mender_err.ok)
  else (mender_api_jwt, mender_err.fail)

/-! ## mender-utils.c: key/value list serialization (claims C2, C8) -/

/-- `MENDER_KEY_VALUE_DELIMITER`: the ASCII unit separator 0x1F. -/
def MENDER_KEY_VALUE_DELIMITER : Char := Char.ofNat 31

/-- `MENDER_KEY_VALUE_SEPARATOR`: the ASCII record separator 0x1E. -/
def MENDER_KEY_VALUE_SEPARATOR : Char := Char.ofNat 30

/-- `mender_key_value_list_t`: a singly linked list of nullable key/value
strings. -/
abbrev mender_key_value_list := List (Option (List Char) × Option (List Char))

/-- `mender_utils_key_value_list_to_string` (mender-utils.c:407): for each
node whose key and value are both non-NULL, append
`key <0x1F> value <0x1E>`; other nodes are skipped. -/
def mender_utils_key_value_list_to_string : mender_key_value_list → List Char
  | [] => []
  | (some k, some v) :: rest =>
    k ++ MENDER_KEY_VALUE_DELIMITER
      :: (v ++ MENDER_KEY_VALUE_SEPARATOR :: mender_utils_key_value_list_to_string rest)
  | _ :: rest => mender_utils_key_value_list_to_string rest

/-- All segments of a string between record separators (0x1E), in order,
including empty segments: the records of the claim. `strtok_r` walks exactly
the non-empty ones. -/
def splitRecords : List Char → List (List Char)
  | [] => [[]]
  | c :: cs =>
    if c = MENDER_KEY_VALUE_SEPARATOR then [] :: splitRecords cs
    else
      match splitRecords cs with
      | [] => [[c]]
      | r :: rs => (c :: r) :: rs

/-- The token sequence produced by `strtok_r(str, "\x1E", &saveptr)`
iteration: the non-empty records, in order. -/
def strtok_tokens (s : List Char) : List (List Char) :=
  (splitRecords s).filter (fun t => !t.isEmpty)

/-- The `strchr(token, 0x1F)` split of one record
(mender-utils.c:472-478): `none` when the record has no unit separator;
otherwise the part before the first unit separator (the key, NUL-terminated
in place) and the part after it (the value). -/
def strchrSplit (t : List Char) : Option (List Char × List Char) :=
  if MENDER_KEY_VALUE_DELIMITER ∈ t then
    some (t.takeWhile (fun c => !(c == MENDER_KEY_VALUE_DELIMITER)),
          (t.dropWhile (fun c => !(c == MENDER_KEY_VALUE_DELIMITER))).tail)
  else none

/-- The token loop of `mender_utils_string_to_key_value_list`
(mender-utils.c:471-484): each token must contain a unit separator, and
`mender_utils_create_key_value_node` PREPENDS the new node to `*list`. -/
def create_key_value_fold : List (List Char) → mender_key_value_list →
    Option mender_key_value_list
  | [], list => some list
  | t :: ts, list =>
    match strchrSplit t with
    | none => none
    | some kv => create_key_value_fold ts ((some kv.1, some kv.2) :: list)

/-- `mender_utils_string_to_key_value_list` (mender-utils.c:447): tokenize on
record separators and fold each token into the caller's list; `none` models
the `MENDER_FAIL` return on a record without a unit separator. -/
def mender_utils_string_to_key_value_list (key_value_str : List Char)
    (list : mender_key_value_list) : Option mender_key_value_list :=
  create_key_value_fold (strtok_tokens key_value_str) list

/-- Concrete two-node list used to exhibit the order reversal of the
serialize/parse round trip. -/
def c2_list : mender_key_value_list :=
  [(some ['a'], some ['1']), (some ['b'], some ['2'])]

/-- The record each serialized node contributes between record separators:
`key <0x1F> value`. -/
def serializedRecords : mender_key_value_list → List (List Char)
  | [] => []
  | (some k, some v) :: rest =>
    (k ++ MENDER_KEY_VALUE_DELIMITER :: v) :: serializedRecords rest
  | _ :: rest => serializedRecords rest

/-- A key/value node that round-trips: key and value are non-NULL, neither
contains the record separator, and the key contains no unit separator (a
unit separator in the VALUE is tolerated: `strchr` takes the first one). -/
def kv_node_wf (p : Option (List Char) × Option (List Char)) : Prop :=
  ∃ k v, p = (some k, some v)
    ∧ MENDER_KEY_VALUE_SEPARATOR ∉ k
    ∧ MENDER_KEY_VALUE_SEPARATOR ∉ v
    ∧ MENDER_KEY_VALUE_DELIMITER ∉ k

/-! ## mender-api.c: check-for-deployment (claims C1, C7) -/

/-- `mender_api_deployment_data_t` as filled by
`mender_api_check_for_deployment`; each field starts NULL and is only set
when the corresponding JSON item is found. -/
structure mender_api_deployment_data where
  id : Option String
  artifact_name : Option String
  uri : Option String
  device_types_compatible : Option (List String)
deriving DecidableEq

/-- The zero-initialized deployment data of the caller. -/
def emptyDeployment : mender_api_deployment_data := ⟨none, none, none, none⟩

/-- The `device_types_compatible` block (mender-api.c:401-425): requires the
item to exist and be an array, `strdup`s every string element, and forces
`ret = MENDER_FAIL` when the item is missing, not an array, or any element is
not a string. `ret` is never set back to `MENDER_OK` here. -/
def deploymentTreatDtc (art : cJSON) (idField anField uriField : Option String)
    (ret : mender_err) : Option (mender_err × mender_api_deployment_data) :=
  match cJSON_GetObjectItem art "device_types_compatible" with
  | some (cJSON.arr items) =>
    if items.all (fun j => (cJSON_GetStringValue j).isSome) then
      some (ret, ⟨idField, anField, uriField, some (items.filterMap cJSON_GetStringValue)⟩)
    else
      some (mender_err.fail, ⟨idField, anField, uriField, some (items.filterMap cJSON_GetStringValue)⟩)
  | _ => some (mender_err.fail, ⟨idField, anField, uriField, none⟩)

/-- The `source`/`uri` block (mender-api.c:384-400): a missing `source` or
`uri` logs "Invalid response" and sets `ret = MENDER_FAIL`; a found `uri`
sets `ret = MENDER_OK`; either way control continues to the
`device_types_compatible` block. `strdup(cJSON_GetStringValue(uri))` with a
non-string `uri` is undefined behaviour (`none`). -/
def deploymentTreatSource (art : cJSON) (idField anField : Option String) :
    Option (mender_err × mender_api_deployment_data) :=
  match cJSON_GetObjectItem art "source" with
  | none => deploymentTreatDtc art idField anField none mender_err.fail
  | some src =>
    match cJSON_GetObjectItem src "uri" with
    | none => deploymentTreatDtc art idField anField none mender_err.fail
    | some juri =>
      match cJSON_GetStringValue juri with
      | none => none
      | some u => deploymentTreatDtc art idField anField (some u) mender_err.ok

/-- The `artifact` block (mender-api.c:375-429): a missing `artifact` member
sets `ret = MENDER_FAIL`; a present but missing `artifact_name` inside it is
silently skipped (no failure). -/
def deploymentTreatArtifact (js : cJSON) (idField : Option String) :
    Option (mender_err × mender_api_deployment_data) :=
  match cJSON_GetObjectItem js "artifact" with
  | none => some (mender_err.fail, ⟨idField, none, none, none⟩)
  | some art =>
    match cJSON_GetObjectItem art "artifact_name" with
    | none => deploymentTreatSource art idField none
    | some jan =>
      match cJSON_GetStringValue jan with
      | none => none
      | some an => deploymentTreatSource art idField (some an)

/-- Status treatment of `mender_api_check_for_deployment`
(mender-api.c:364-441): 200 parses the response (NULL/unparseable is a
failure) and walks the JSON; a missing `id` member is silently skipped (no
failure); 204 is `MENDER_NOT_FOUND`; anything else is `MENDER_FAIL`. The
outer `Option` is `none` on the undefined `strdup(NULL)` calls. -/
def mender_api_check_for_deployment_treatment (status : Nat) (response : Option cJSON) :
    Option (mender_err × mender_api_deployment_data) :=
  if status = 200 then
    match response with
    | none => some (mender_err.fail, emptyDeployment)
    | some js =>
      match cJSON_GetObjectItem js "id" with
      | none => deploymentTreatArtifact js none
      | some jid =>
        match cJSON_GetStringValue jid with
        | none => none
        | some sid => deploymentTreatArtifact js (some sid)
  else if status = 204 then some (mender_err.notFound, emptyDeployment)
  else some (mender_err.fail, emptyDeployment)

/-- `mender_api_check_for_deployment` (mender-api.c:342): performs the v2
exchange; `MENDER_FAIL` from it aborts; on HTTP 404 the v2 response is
discarded and the v1 exchange result replaces status and response; the
status treatment then runs on whichever exchange was kept. The exchanges are
external I/O, so their results are parameters. -/
def mender_api_check_for_deployment (v2ret : mender_err) (v2status : Nat)
    (v2resp : Option cJSON) (v1ret : mender_err) (v1status : Nat) (v1resp : Option cJSON) :
    Option (mender_err × mender_api_deployment_data) :=
  if v2ret = mender_err.fail then some (mender_err.fail, emptyDeployment)
  else if v2status = 404 then
    if v1ret = mender_err.fail then some (mender_err.fail, emptyDeployment)
    else mender_api_check_for_deployment_treatment v1status v1resp
  else mender_api_check_for_deployment_treatment v2status v2resp

/-- `artifact.source.uri` exists and is a string. -/
def deployment_source_uri_ok (art : cJSON) : Bool :=
  match cJSON_GetObjectItem art "source" with
  | none => false
  | some src =>
    match cJSON_GetObjectItem src "uri" with
    | none => false
    | some juri => (cJSON_GetStringValue juri).isSome

/-- `artifact.device_types_compatible` exists and is an array of strings. -/
def deployment_dtc_ok (art : cJSON) : Bool :=
  match cJSON_GetObjectItem art "device_types_compatible" with
  | some (cJSON.arr items) => items.all (fun j => (cJSON_GetStringValue j).isSome)
  | _ => false

/-- The required-field check actually enforced by the code for a 200
deployment response: `artifact.source.uri` must exist and be a string and
`artifact.device_types_compatible` must exist and be an array of strings.
(`id` and `artifact.artifact_name` are NOT enforced by the code.) -/
def deployment_response_required_ok (js : cJSON) : Bool :=
  match cJSON_GetObjectItem js "artifact" with
  | none => false
  | some art => deployment_source_uri_ok art && deployment_dtc_ok art

/-- A 200 response body carrying everything except the `id` member. -/
def c1_response : cJSON :=
  cJSON.obj [("artifact", cJSON.obj
    [("artifact_name", cJSON.str "fw-2"),
     ("source", cJSON.obj [("uri", cJSON.str "https://a/x")]),
     ("device_types_compatible", cJSON.arr [cJSON.str "dev-A"])])]

/-- A fully-populated 200 response body. -/
def c1_full_response : cJSON :=
  cJSON.obj [("id", cJSON.str "d1"),
    ("artifact", cJSON.obj
      [("artifact_name", cJSON.str "fw-2"),
       ("source", cJSON.obj [("uri", cJSON.str "https://a/x")]),
       ("device_types_compatible", cJSON.arr [cJSON.str "dev-A"])])]

/-! ## mender-utils.c: keystore JSON round trip (claim C5) -/

/-- `mender_keystore_t`: an array of nullable (name, value) pairs terminated
by a sentinel; the list holds the entries before the sentinel. -/
abbrev mender_keystore := List (Option String × Option String)

/-- The member list built by the loop of `mender_utils_keystore_to_json`
(mender-utils.c:264-269): iteration stops at the first entry whose name or
value is NULL. -/
def keystore_json_fields : mender_keystore → List (String × cJSON)
  | (some n, some v) :: rest => (n, cJSON.str v) :: keystore_json_fields rest
  | _ => []

/-- `mender_utils_keystore_to_json` (mender-utils.c:253): a JSON object with
one string member per keystore entry, in order. -/
def mender_utils_keystore_to_json (keystore : mender_keystore) : cJSON :=
  cJSON.obj (keystore_json_fields keystore)

/-- `mender_utils_keystore_from_json` (mender-utils.c:208): walks the
children of the object and keeps those with a member name and a string value
(`current_item->string` and `current_item->valuestring` non-NULL), in order.
Non-object values have no named children, yielding an empty keystore. -/
def mender_utils_keystore_from_json : cJSON → mender_keystore
  | cJSON.obj fields =>
    fields.filterMap (fun f =>
      match f.2 with
      | cJSON.str v => some (some f.1, some v)
      | _ => none)
  | _ => []

/-! ## mender-artifact-download.c: artifact download (claims C6, C9) -/

/-- Modelled from the spec: `MENDER_ARTIFACT_STREAM_BLOCK_SIZE` is defined in
mender-artifact.h, which is not part of the sources; §4.3/§5 fix the tar
stream block at 512 bytes. -/
def MENDER_ARTIFACT_STREAM_BLOCK_SIZE : Nat := 512

/-- `mender_http_client_event_t`: the four HTTP client callback events. -/
inductive mender_http_client_event where
  | connected
  | dataReceived (data : List Char)
  | disconnected
  | error
deriving DecidableEq

/-- `mender_artifact_ctx_t`, abstracted: the input buffer capacity requested
at creation, plus the parser state (opaque to this file, the artifact parser
proper is not among the sources). -/
structure mender_artifact_ctx (σ : Type) where
  bufCapacity : Nat
  parserState : σ

/-- Modelled from the spec: `mender_artifact_create_ctx` (mender-artifact.c,
not among the sources) allocates a fresh context whose input buffer has the
given capacity. -/
def mender_artifact_create_ctx (σ : Type) (init : σ) (bufCapacity : Nat) :
    mender_artifact_ctx σ :=
  ⟨bufCapacity, init⟩

/-- `mender_download_artifact_callback` (mender-artifact-download.c:69):
CONNECTED creates the context with capacity
`2 * MENDER_ARTIFACT_STREAM_BLOCK_SIZE + mender_http_recv_buf_length`;
DATA_RECEIVED rejects empty chunks and a missing context, otherwise runs
`mender_artifact_process_data` (abstract `processData`) on the parser state;
DISCONNECTED does nothing; ERROR fails. Returns the result code and the
context after the event. -/
def mender_download_artifact_callback {σ : Type} (recvBufLen : Nat) (init : σ)
    (processData : σ → List Char → mender_err × σ)
    (ctx : Option (mender_artifact_ctx σ)) :
    mender_http_client_event → mender_err × Option (mender_artifact_ctx σ)
  | mender_http_client_event.connected =>
    (mender_err.ok,
      some (mender_artifact_create_ctx σ init (2 * MENDER_ARTIFACT_STREAM_BLOCK_SIZE + recvBufLen)))
  | mender_http_client_event.dataReceived d =>
    if d.isEmpty then (mender_err.fail, ctx)
    else
      match ctx with
      | none => (mender_err.fail, none)
      | some c =>
        let pr := processData c.parserState d
        (pr.1, some ⟨c.bufCapacity, pr.2⟩)
  | mender_http_client_event.disconnected => (mender_err.ok, ctx)
  | mender_http_client_event.error => (mender_err.fail, ctx)

/-- Modelled from the spec: the event loop of `mender_http_artifact_download`
(mender-http.c, not among the sources). Per §5/§6 the HTTP client delivers
CONNECTED, DATA_RECEIVED chunks in byte order and DISCONNECTED to the wired
callback, each completing before the next; a failing callback makes the
transfer fail. -/
def runArtifactEvents {σ : Type} (recvBufLen : Nat) (init : σ)
    (processData : σ → List Char → mender_err × σ) :
    List mender_http_client_event → Option (mender_artifact_ctx σ) → mender_err
  | [], _ => mender_err.ok
  | e :: es, ctx =>
    match mender_download_artifact_callback recvBufLen init processData ctx e with
    | (mender_err.ok, ctx2) => runArtifactEvents recvBufLen init processData es ctx2
    | (r, _) => r

/-- Modelled from the spec: `mender_http_artifact_download` (mender-http.c,
not among the sources) performs the GET on the pre-signed URI with no session
token, drives the events through the callback starting with no context, and
reports the transfer result together with the final HTTP status. -/
def mender_http_artifact_download {σ : Type} (recvBufLen : Nat) (init : σ)
    (processData : σ → List Char → mender_err × σ)
    (events : List mender_http_client_event) (status : Nat) : mender_err × Nat :=
  (runArtifactEvents recvBufLen init processData events none, status)

/-- `mender_download_artifact` (mender-artifact-download.c:33): a failing
transfer is returned as is; otherwise HTTP status 200 is `MENDER_OK` and any
other status `MENDER_FAIL`. -/
def mender_download_artifact {σ : Type} (recvBufLen : Nat) (init : σ)
    (processData : σ → List Char → mender_err × σ)
    (events : List mender_http_client_event) (status : Nat) : mender_err :=
  let res := mender_http_artifact_download recvBufLen init processData events status
  if res.1 ≠ mender_err.ok then res.1
  else if res.2 = 200 then mender_err.ok
  else mender_err.fail

/-- The data chunks delivered by a list of events, in order. -/
def dataChunks : List mender_http_client_event → List (List Char)
  | [] => []
  | mender_http_client_event.dataReceived d :: es => d :: dataChunks es
  | _ :: es => dataChunks es

/-- "The streaming parser processed all delivered data successfully": the
parser accepts every chunk in sequence. -/
def parserAcceptsAll {σ : Type} (processData : σ → List Char → mender_err × σ) :
    σ → List (List Char) → Bool
  | _, [] => true
  | s, d :: ds =>
    match processData s d with
    | (mender_err.ok, s2) => parserAcceptsAll processData s2 ds
    | _ => false

/-! ## Theorems -/

/-- C10: for every pair of arguments where at least one is NULL, the prefix
and suffix predicates `mender_utils_strbeginwith` and
`mender_utils_strendwith` return false (no fault): the NULL branch is a
defined part of their interface. -/
theorem C10_null_arguments_return_false (a : Option (List Char)) :
    mender_utils_strbeginwith none a = false
  ∧ mender_utils_strbeginwith a none = false
  ∧ mender_utils_strendwith none a = some false
  ∧ mender_utils_strendwith a none = some false := by
  cases a <;> exact ⟨rfl, rfl, rfl, rfl⟩

/-- C4: if the authentication request completes with HTTP status 200 and a
non-empty body, the body is stored verbatim as the session token, replacing
any previously held token; any non-200 status is a failure and leaves the
token unchanged. -/
theorem C4_authentication_stores_token_verbatim (status : Nat)
    (response mender_api_jwt : Option String) :
    (status = 200 → ∀ body, response = some body →
      mender_api_perform_authentication_treatment status response mender_api_jwt
        = (some body, mender_err.ok))
  ∧ (status ≠ 200 →
      mender_api_perform_authentication_treatment status response mender_api_jwt
        = (mender_api_jwt, mender_err.fail)) := by
  constructor
  · rintro rfl body rfl
    simp [mender_api_perform_authentication_treatment]
  · intro h
    simp [mender_api_perform_authentication_treatment, h]

/-- Witness for C4 at status 200 with body "tok" over an old token, and at
status 401. -/
theorem C4_authentication_stores_token_verbatim_witness :
    mender_api_perform_authentication_treatment 200 (some "tok") (some "old")
      = (some "tok", mender_err.ok)
  ∧ mender_api_perform_authentication_treatment 401 (some "oops") (some "old")
      = (some "old", mender_err.fail) :=
  ⟨(C4_authentication_stores_token_verbatim 200 (some "tok") (some "old")).1 rfl "tok" rfl,
   (C4_authentication_stores_token_verbatim 401 (some "oops") (some "old")).2 (by decide)⟩

/-- C3 (counterexample): with a stored token "token" the client is
authenticated, yet the artifact-download request hands the HTTP client no
token at all (mender-api.c:528 passes NULL), contradicting the claim that
every listed request, artifact download included, passes the stored
session token. -/
theorem C3_counterexample :
    mender_api_is_authenticated (some "token") = true
  ∧ (mender_api_download_artifact_request "https://server/a.mender").jwt = none
  ∧ ¬((mender_api_download_artifact_request "https://server/a.mender").jwt = some "token") := by
  refine ⟨rfl, rfl, ?_⟩
  simp [mender_api_download_artifact_request]

/-- C3 (amended): whenever `mender_api_is_authenticated` returns true, the
deployment polls (v2 and v1), the deployment-status publish and the
inventory publish all pass the stored session token to the HTTP client,
while the artifact download passes no token (the URI is pre-signed). -/
theorem C3_amended_token_attachment (mender_api_jwt : Option String)
    (h : mender_api_is_authenticated mender_api_jwt = true)
    (payloadV2 artifactName deviceType id payloadStatus payloadInventory uri : String) :
    ∃ t, mender_api_jwt = some t
      ∧ (api_check_for_deployment_v2_request mender_api_jwt payloadV2).jwt = some t
      ∧ (api_check_for_deployment_v1_request mender_api_jwt artifactName deviceType).jwt = some t
      ∧ (mender_api_publish_deployment_status_request mender_api_jwt id payloadStatus).jwt = some t
      ∧ (mender_api_publish_inventory_data_request mender_api_jwt payloadInventory).jwt = some t
      ∧ (mender_api_download_artifact_request uri).jwt = none := by
  cases mender_api_jwt with
  | none => simp [mender_api_is_authenticated] at h
  | some t => exact ⟨t, rfl, rfl, rfl, rfl, rfl, rfl⟩

/-- Witness for the amended C3 at token "token" and concrete request
arguments. -/
theorem C3_amended_token_attachment_witness :
    mender_api_is_authenticated (some "token") = true
  ∧ ∃ t, (some "token" : Option String) = some t
      ∧ (api_check_for_deployment_v2_request (some "token") "p").jwt = some t
      ∧ (api_check_for_deployment_v1_request (some "token") "fw-1" "dev-A").jwt = some t
      ∧ (mender_api_publish_deployment_status_request (some "token") "d1" "s").jwt = some t
      ∧ (mender_api_publish_inventory_data_request (some "token") "inv").jwt = some t
      ∧ (mender_api_download_artifact_request "https://a/x").jwt = none :=
  ⟨rfl, C3_amended_token_attachment (some "token") rfl "p" "fw-1" "dev-A" "d1" "s" "inv" "https://a/x"⟩

/-- C9: on the HTTP CONNECTED event of an artifact download the parser
context is created with an input buffer of capacity exactly
`2 * MENDER_ARTIFACT_STREAM_BLOCK_SIZE + mender_http_recv_buf_length`,
i.e. 1024 bytes plus the HTTP receive buffer length. -/
theorem C9_connected_creates_bounded_buffer {σ : Type} (recvBufLen : Nat) (init : σ)
    (processData : σ → List Char → mender_err × σ)
    (ctx : Option (mender_artifact_ctx σ)) :
    (mender_download_artifact_callback recvBufLen init processData ctx
        mender_http_client_event.connected).1 = mender_err.ok
  ∧ ((mender_download_artifact_callback recvBufLen init processData ctx
        mender_http_client_event.connected).2.map (fun c => c.bufCapacity))
      = some (2 * MENDER_ARTIFACT_STREAM_BLOCK_SIZE + recvBufLen)
  ∧ 2 * MENDER_ARTIFACT_STREAM_BLOCK_SIZE + recvBufLen = 1024 + recvBufLen :=
  ⟨rfl, rfl, rfl⟩

/-- C7: the deployment check consults the v1 exchange if and only if the v2
exchange completed (no transport failure) with HTTP status 404, and the
status handling then proceeds on the v1 result; on any other v2 status the
result is the treatment of the v2 response, independent of the v1
arguments; a v2 transport failure aborts. -/
theorem C7_v2_404_falls_back_to_v1 (v2status v1status : Nat)
    (v2resp v1resp : Option cJSON) (v1ret : mender_err) :
    (v2status = 404 → v1ret ≠ mender_err.fail →
      mender_api_check_for_deployment mender_err.ok v2status v2resp v1ret v1status v1resp
        = mender_api_check_for_deployment_treatment v1status v1resp)
  ∧ (v2status ≠ 404 →
      mender_api_check_for_deployment mender_err.ok v2status v2resp v1ret v1status v1resp
        = mender_api_check_for_deployment_treatment v2status v2resp)
  ∧ mender_api_check_for_deployment mender_err.fail v2status v2resp v1ret v1status v1resp
      = some (mender_err.fail, emptyDeployment) := by
  refine ⟨?_, ?_, ?_⟩
  · rintro rfl h1
    simp [mender_api_check_for_deployment, h1]
  · intro h
    simp [mender_api_check_for_deployment, h]
  · simp [mender_api_check_for_deployment]

/-- Witness for C7: a v2 404 falling back to a v1 200, and a v2 200 ignoring
the v1 arguments. -/
theorem C7_v2_404_falls_back_to_v1_witness :
    mender_api_check_for_deployment mender_err.ok 404 none mender_err.ok 200 (some c1_full_response)
      = mender_api_check_for_deployment_treatment 200 (some c1_full_response)
  ∧ mender_api_check_for_deployment mender_err.ok 200 (some c1_full_response) mender_err.ok 204 none
      = mender_api_check_for_deployment_treatment 200 (some c1_full_response) :=
  ⟨(C7_v2_404_falls_back_to_v1 404 200 none (some c1_full_response) mender_err.ok).1 rfl (by decide),
   (C7_v2_404_falls_back_to_v1 200 204 (some c1_full_response) none mender_err.ok).2.1 (by decide)⟩

/-- C5: for every keystore whose entries all have non-NULL name and value,
`mender_utils_keystore_to_json` followed by `mender_utils_keystore_from_json`
yields the original keystore, with the entries in the same order. -/
theorem C5_keystore_json_round_trip (keystore : mender_keystore)
    (h : ∀ p ∈ keystore, p.1.isSome ∧ p.2.isSome) :
    mender_utils_keystore_from_json (mender_utils_keystore_to_json keystore) = keystore := by
  induction keystore with
  | nil => rfl
  | cons p rest ih =>
    obtain ⟨h1, h2⟩ := h p (List.mem_cons_self p rest)
    obtain ⟨pn, pv⟩ := p
    obtain ⟨n, hn⟩ := Option.isSome_iff_exists.mp h1
    obtain ⟨v, hv⟩ := Option.isSome_iff_exists.mp h2
    subst hn hv
    have ihr := ih (fun q hq => h q (List.mem_cons_of_mem _ hq))
    simp only [mender_utils_keystore_to_json, mender_utils_keystore_from_json,
      keystore_json_fields] at ihr ⊢
    simpa using ihr

/-- Witness for C5 at a one-entry keystore. -/
theorem C5_keystore_json_round_trip_witness :
    (∀ p ∈ [((some "artifact_name" : Option String), (some "fw-2" : Option String))],
        p.1.isSome ∧ p.2.isSome)
  ∧ mender_utils_keystore_from_json
      (mender_utils_keystore_to_json [(some "artifact_name", some "fw-2")])
      = [(some "artifact_name", some "fw-2")] :=
  ⟨by decide, C5_keystore_json_round_trip [(some "artifact_name", some "fw-2")] (by decide)⟩

theorem splitRecords_append_sep (t rest : List Char)
    (ht : MENDER_KEY_VALUE_SEPARATOR ∉ t) :
    splitRecords (t ++ MENDER_KEY_VALUE_SEPARATOR :: rest) = t :: splitRecords rest := by
  induction t with
  | nil => simp [splitRecords]
  | cons c t ih =>
    have hc : ¬(c = MENDER_KEY_VALUE_SEPARATOR) := fun h => ht (h ▸ List.mem_cons_self c t)
    have ht2 : MENDER_KEY_VALUE_SEPARATOR ∉ t := fun h => ht (List.mem_cons_of_mem c h)
    rw [List.cons_append]
    simp only [splitRecords, if_neg hc, ih ht2]

theorem splitRecords_serialize (l : mender_key_value_list) (h : ∀ p ∈ l, kv_node_wf p) :
    splitRecords (mender_utils_key_value_list_to_string l) = serializedRecords l ++ [[]] := by
  induction l with
  | nil => rfl
  | cons p rest ih =>
    obtain ⟨k, v, hp, hk, hv, hdk⟩ := h p (List.mem_cons_self p rest)
    subst hp
    have hrest := ih (fun q hq => h q (List.mem_cons_of_mem _ hq))
    have hsep : MENDER_KEY_VALUE_SEPARATOR ∉ k ++ MENDER_KEY_VALUE_DELIMITER :: v := by
      intro hm
      rcases List.mem_append.mp hm with h1 | h1
      · exact hk h1
      · rcases List.mem_cons.mp h1 with h2 | h2
        · exact absurd h2 (by decide)
        · exact hv h2
    have hassoc : mender_utils_key_value_list_to_string ((some k, some v) :: rest)
        = (k ++ MENDER_KEY_VALUE_DELIMITER :: v)
            ++ MENDER_KEY_VALUE_SEPARATOR :: mender_utils_key_value_list_to_string rest := by
      simp [mender_utils_key_value_list_to_string]
    rw [hassoc, splitRecords_append_sep _ _ hsep, hrest]
    rfl

theorem strtok_tokens_serialize (l : mender_key_value_list) (h : ∀ p ∈ l, kv_node_wf p) :
    strtok_tokens (mender_utils_key_value_list_to_string l) = serializedRecords l := by
  unfold strtok_tokens
  rw [splitRecords_serialize l h, List.filter_append]
  have h2 : ∀ t ∈ serializedRecords l, (!t.isEmpty) = true := by
    intro t htl
    induction l with
    | nil => cases htl
    | cons p rest ih =>
      obtain ⟨k, v, hp, _, _, _⟩ := h p (List.mem_cons_self p rest)
      subst hp
      simp only [serializedRecords, List.mem_cons] at htl
      rcases htl with rfl | htl
      · cases k <;> simp
      · exact ih (fun q hq => h q (List.mem_cons_of_mem _ hq)) htl
  rw [List.filter_eq_self.mpr h2]
  simp

theorem takeWhile_until_delim (k v : List Char) (hk : MENDER_KEY_VALUE_DELIMITER ∉ k) :
    (k ++ MENDER_KEY_VALUE_DELIMITER :: v).takeWhile
        (fun c => !(c == MENDER_KEY_VALUE_DELIMITER)) = k := by
  induction k with
  | nil => simp [List.takeWhile_cons]
  | cons c t ih =>
    have hc : c ≠ MENDER_KEY_VALUE_DELIMITER := fun h => hk (h ▸ List.mem_cons_self c t)
    have ht : MENDER_KEY_VALUE_DELIMITER ∉ t := fun h => hk (List.mem_cons_of_mem c h)
    simp [List.takeWhile_cons, hc, ih ht]

theorem dropWhile_until_delim (k v : List Char) (hk : MENDER_KEY_VALUE_DELIMITER ∉ k) :
    (k ++ MENDER_KEY_VALUE_DELIMITER :: v).dropWhile
        (fun c => !(c == MENDER_KEY_VALUE_DELIMITER))
      = MENDER_KEY_VALUE_DELIMITER :: v := by
  induction k with
  | nil => simp [List.dropWhile_cons]
  | cons c t ih =>
    have hc : c ≠ MENDER_KEY_VALUE_DELIMITER := fun h => hk (h ▸ List.mem_cons_self c t)
    have ht : MENDER_KEY_VALUE_DELIMITER ∉ t := fun h => hk (List.mem_cons_of_mem c h)
    simp [List.dropWhile_cons, hc, ih ht]

theorem strchrSplit_record (k v : List Char) (hk : MENDER_KEY_VALUE_DELIMITER ∉ k) :
    strchrSplit (k ++ MENDER_KEY_VALUE_DELIMITER :: v) = some (k, v) := by
  have hmem : MENDER_KEY_VALUE_DELIMITER ∈ k ++ MENDER_KEY_VALUE_DELIMITER :: v :=
    List.mem_append_right _ (List.mem_cons_self _ _)
  unfold strchrSplit
  rw [if_pos hmem, takeWhile_until_delim k v hk, dropWhile_until_delim k v hk]
  rfl

theorem create_key_value_fold_serialized (l : mender_key_value_list)
    (h : ∀ p ∈ l, kv_node_wf p) :
    ∀ acc, create_key_value_fold (serializedRecords l) acc = some (l.reverse ++ acc) := by
  induction l with
  | nil => intro acc; simp [serializedRecords, create_key_value_fold]
  | cons p rest ih =>
    intro acc
    obtain ⟨k, v, hp, hk, hv, hdk⟩ := h p (List.mem_cons_self p rest)
    subst hp
    simp only [serializedRecords, create_key_value_fold, strchrSplit_record k v hdk]
    rw [ih (fun q hq => h q (List.mem_cons_of_mem _ hq)) ((some k, some v) :: acc)]
    simp

/-- C2 (amended): serializing a key/value list whose nodes are all non-NULL
— keys free of both separators, values free of the record separator — and
parsing the result back yields the REVERSED list: the same (key, value)
pairs, but `mender_utils_create_key_value_node` prepends each parsed record,
inverting the insertion order. -/
theorem C2_amended_round_trip_reverses (l : mender_key_value_list)
    (h : ∀ p ∈ l, kv_node_wf p) :
    mender_utils_string_to_key_value_list (mender_utils_key_value_list_to_string l) []
      = some l.reverse := by
  unfold mender_utils_string_to_key_value_list
  rw [strtok_tokens_serialize l h, create_key_value_fold_serialized l h []]
  simp

/-- Witness for the amended C2 at the two-node list. -/
theorem C2_amended_round_trip_reverses_witness :
    (∀ p ∈ c2_list, kv_node_wf p)
  ∧ mender_utils_string_to_key_value_list (mender_utils_key_value_list_to_string c2_list) []
      = some c2_list.reverse := by
  have hwf : ∀ p ∈ c2_list, kv_node_wf p := by
    intro p hp
    simp only [c2_list, List.mem_cons, List.not_mem_nil, or_false] at hp
    rcases hp with rfl | rfl
    · exact ⟨['a'], ['1'], rfl, by decide, by decide, by decide⟩
    · exact ⟨['b'], ['2'], rfl, by decide, by decide, by decide⟩
  exact ⟨hwf, C2_amended_round_trip_reverses c2_list hwf⟩

/-- C2 (counterexample): for the two-node list [(a,1), (b,2)] the
serialize/parse round trip returns [(b,2), (a,1)], not the identical list:
the claim's "same insertion order" fails. -/
theorem C2_counterexample :
    mender_utils_string_to_key_value_list (mender_utils_key_value_list_to_string c2_list) []
      = some [(some ['b'], some ['2']), (some ['a'], some ['1'])]
  ∧ mender_utils_string_to_key_value_list (mender_utils_key_value_list_to_string c2_list) []
      ≠ some c2_list := by
  constructor
  · decide
  · decide

theorem strchrSplit_eq_none_iff (t : List Char) :
    strchrSplit t = none ↔ MENDER_KEY_VALUE_DELIMITER ∉ t := by
  unfold strchrSplit
  split
  · simpa using (by assumption : MENDER_KEY_VALUE_DELIMITER ∈ t)
  · simpa using (by assumption : ¬MENDER_KEY_VALUE_DELIMITER ∈ t)

theorem create_key_value_fold_eq_none_iff (ts : List (List Char)) :
    ∀ acc, create_key_value_fold ts acc = none
      ↔ ∃ t ∈ ts, MENDER_KEY_VALUE_DELIMITER ∉ t := by
  induction ts with
  | nil => intro acc; simp [create_key_value_fold]
  | cons t ts ih =>
    intro acc
    cases hs : strchrSplit t with
    | none =>
      have hd := (strchrSplit_eq_none_iff t).mp hs
      have hl : create_key_value_fold (t :: ts) acc = none := by
        simp [create_key_value_fold, hs]
      rw [hl]
      exact iff_of_true rfl ⟨t, List.mem_cons_self t ts, hd⟩
    | some kv =>
      have hmem : MENDER_KEY_VALUE_DELIMITER ∈ t := by
        by_contra hn
        rw [(strchrSplit_eq_none_iff t).mpr hn] at hs
        cases hs
      simp only [create_key_value_fold, hs]
      rw [ih ((some kv.1, some kv.2) :: acc)]
      constructor
      · rintro ⟨x, hx, hpx⟩
        exact ⟨x, List.mem_cons_of_mem t hx, hpx⟩
      · rintro ⟨x, hx, hpx⟩
        rcases List.mem_cons.mp hx with rfl | hx2
        · exact absurd hmem hpx
        · exact ⟨x, hx2, hpx⟩

/-- C8: `mender_utils_string_to_key_value_list` (run on an empty initial
list) fails with the malformed error exactly when some non-empty record — a
segment between ASCII record separators 0x1E — contains no ASCII unit
separator 0x1F; when every non-empty record contains one, parsing succeeds
(allocation failures are outside the model). -/
theorem C8_malformed_iff_record_without_delim (s : List Char) :
    mender_utils_string_to_key_value_list s [] = none
      ↔ ∃ t ∈ splitRecords s, t ≠ [] ∧ MENDER_KEY_VALUE_DELIMITER ∉ t := by
  unfold mender_utils_string_to_key_value_list
  rw [create_key_value_fold_eq_none_iff (strtok_tokens s) []]
  unfold strtok_tokens
  constructor
  · rintro ⟨t, ht, hd⟩
    have h2 := List.mem_filter.mp ht
    refine ⟨t, h2.1, ?_, hd⟩
    simpa using h2.2
  · rintro ⟨t, ht, hne, hd⟩
    exact ⟨t, List.mem_filter.mpr ⟨ht, by simpa using hne⟩, hd⟩

theorem deploymentTreatDtc_ok_iff (art : cJSON) (idF anF uriF : Option String)
    (ret r : mender_err) (d : mender_api_deployment_data)
    (h : deploymentTreatDtc art idF anF uriF ret = some (r, d)) :
    r = mender_err.ok ↔ (ret = mender_err.ok ∧ deployment_dtc_ok art = true) := by
  unfold deploymentTreatDtc at h
  unfold deployment_dtc_ok
  split at h
  · split at h
    · rename_i hall
      simp only [Option.some.injEq, Prod.mk.injEq] at h
      obtain ⟨rfl, -⟩ := h
      simp [hall]
    · rename_i hall
      simp only [Option.some.injEq, Prod.mk.injEq] at h
      obtain ⟨rfl, -⟩ := h
      simp [hall]
  · simp only [Option.some.injEq, Prod.mk.injEq] at h
    obtain ⟨rfl, -⟩ := h
    simp

theorem deploymentTreatSource_ok_iff (art : cJSON) (idF anF : Option String)
    (r : mender_err) (d : mender_api_deployment_data)
    (h : deploymentTreatSource art idF anF = some (r, d)) :
    r = mender_err.ok ↔ (deployment_source_uri_ok art = true ∧ deployment_dtc_ok art = true) := by
  unfold deploymentTreatSource at h
  unfold deployment_source_uri_ok
  split at h
  · rw [deploymentTreatDtc_ok_iff art idF anF none mender_err.fail r d h]
    simp
  · split at h
    · rw [deploymentTreatDtc_ok_iff art idF anF none mender_err.fail r d h]
      simp
    · split at h
      · cases h
      · rename_i u hstr
        rw [deploymentTreatDtc_ok_iff art idF anF (some u) mender_err.ok r d h]
        simp [hstr]

theorem deploymentTreatArtifact_ok_iff (js : cJSON) (idF : Option String)
    (r : mender_err) (d : mender_api_deployment_data)
    (h : deploymentTreatArtifact js idF = some (r, d)) :
    r = mender_err.ok ↔ deployment_response_required_ok js = true := by
  unfold deploymentTreatArtifact at h
  unfold deployment_response_required_ok
  split at h
  · simp only [Option.some.injEq, Prod.mk.injEq] at h
    obtain ⟨rfl, -⟩ := h
    simp
  · rename_i art hart
    split at h
    · rw [deploymentTreatSource_ok_iff art idF none r d h]
      simp [Bool.and_eq_true]
    · split at h
      · cases h
      · rename_i an han
        rw [deploymentTreatSource_ok_iff art idF (some an) r d h]
        simp [Bool.and_eq_true]

/-- C1 (amended): a deployment-poll response with HTTP status 200 yields
`MENDER_OK` exactly when the body parses and contains `artifact.source.uri`
(a string) and `artifact.device_types_compatible` (an array of strings); a
missing `id` or `artifact.artifact_name` is NOT rejected — the descriptor
is accepted with those fields left NULL. -/
theorem C1_amended_required_fields (js : cJSON) (r : mender_err)
    (d : mender_api_deployment_data)
    (h : mender_api_check_for_deployment_treatment 200 (some js) = some (r, d)) :
    r = mender_err.ok ↔ deployment_response_required_ok js = true := by
  have h2 : (match cJSON_GetObjectItem js "id" with
      | none => deploymentTreatArtifact js none
      | some jid =>
        match cJSON_GetStringValue jid with
        | none => none
        | some sid => deploymentTreatArtifact js (some sid)) = some (r, d) := h
  split at h2
  · exact deploymentTreatArtifact_ok_iff js none r d h2
  · split at h2
    · cases h2
    · rename_i sid hsid
      exact deploymentTreatArtifact_ok_iff js (some sid) r d h2

/-- C1 (counterexample): a 200 response whose body carries `artifact` with
`artifact_name`, `source.uri` and `device_types_compatible` but NO `id`
member is accepted with `MENDER_OK` (descriptor id left NULL), contradicting
the claim that a missing `id` makes the call return the malformed-response
failure. -/
theorem C1_counterexample :
    mender_api_check_for_deployment_treatment 200 (some c1_response)
      = some (mender_err.ok, ⟨none, some "fw-2", some "https://a/x", some ["dev-A"]⟩)
  ∧ cJSON_GetObjectItem c1_response "id" = none := by
  exact ⟨by decide, rfl⟩

/-- Witness for the amended C1: the fully-populated response satisfies the
required-field check and is accepted. -/
theorem C1_amended_required_fields_witness :
    deployment_response_required_ok c1_full_response = true :=
  (C1_amended_required_fields c1_full_response mender_err.ok
      ⟨some "d1", some "fw-2", some "https://a/x", some ["dev-A"]⟩ (by decide)).mp rfl

theorem runArtifactEvents_ok_iff {σ : Type} (recvBufLen : Nat) (init : σ)
    (processData : σ → List Char → mender_err × σ) (es : List mender_http_client_event) :
    ∀ (cap : Nat) (s : σ), mender_http_client_event.connected ∉ es →
      (runArtifactEvents recvBufLen init processData es (some ⟨cap, s⟩) = mender_err.ok
        ↔ (mender_http_client_event.error ∉ es
          ∧ (∀ d ∈ dataChunks es, d ≠ [])
          ∧ parserAcceptsAll processData s (dataChunks es) = true)) := by
  induction es with
  | nil =>
    intro cap s _
    simp [runArtifactEvents, dataChunks, parserAcceptsAll]
  | cons e es ih =>
    intro cap s h
    have hnc : mender_http_client_event.connected ∉ es :=
      fun hm => h (List.mem_cons_of_mem _ hm)
    have hne : e ≠ mender_http_client_event.connected :=
      fun he => h (he ▸ List.mem_cons_self _ _)
    cases e with
    | connected => exact absurd rfl hne
    | disconnected =>
      rw [show runArtifactEvents recvBufLen init processData
            (mender_http_client_event.disconnected :: es) (some ⟨cap, s⟩)
          = runArtifactEvents recvBufLen init processData es (some ⟨cap, s⟩) from rfl]
      rw [ih cap s hnc]
      simp [dataChunks]
    | error =>
      rw [show runArtifactEvents recvBufLen init processData
            (mender_http_client_event.error :: es) (some ⟨cap, s⟩)
          = mender_err.fail from rfl]
      simp
    | dataReceived d =>
      by_cases hd : d.isEmpty
      · have hrun : runArtifactEvents recvBufLen init processData
            (mender_http_client_event.dataReceived d :: es) (some ⟨cap, s⟩)
            = mender_err.fail := by
          simp [runArtifactEvents, mender_download_artifact_callback, hd]
        rw [hrun]
        have hdn : d = [] := List.isEmpty_iff.mp hd
        constructor
        · intro hx; exact absurd hx (by decide)
        · rintro ⟨-, hch, -⟩
          exact absurd hdn (hch d (by simp [dataChunks]))
      · have hdn : d ≠ [] := by
          intro hdd
          rw [hdd] at hd
          exact hd rfl
        cases hp : processData s d with
        | mk r s2 =>
          cases r with
          | ok =>
            have hrun : runArtifactEvents recvBufLen init processData
                (mender_http_client_event.dataReceived d :: es) (some ⟨cap, s⟩)
                = runArtifactEvents recvBufLen init processData es (some ⟨cap, s2⟩) := by
              simp [runArtifactEvents, mender_download_artifact_callback, hd, hp]
            rw [hrun, ih cap s2 hnc]
            simp [dataChunks, parserAcceptsAll, hp, hdn]
          | fail =>
            have hrun : runArtifactEvents recvBufLen init processData
                (mender_http_client_event.dataReceived d :: es) (some ⟨cap, s⟩)
                = mender_err.fail := by
              simp [runArtifactEvents, mender_download_artifact_callback, hd, hp]
            rw [hrun]
            simp [dataChunks, parserAcceptsAll, hp]
          | notFound =>
            have hrun : runArtifactEvents recvBufLen init processData
                (mender_http_client_event.dataReceived d :: es) (some ⟨cap, s⟩)
                = mender_err.notFound := by
              simp [runArtifactEvents, mender_download_artifact_callback, hd, hp]
            rw [hrun]
            simp [dataChunks, parserAcceptsAll, hp]

/-- C6: the artifact download sends the GET for the artifact URI with no
session token attached, and `mender_download_artifact` returns `MENDER_OK`
exactly when the HTTP status is 200 and the streaming parser processed all
delivered data successfully (no transport error, no empty chunk, every
chunk accepted); any other status or any parser failure is a failure. -/
theorem C6_download_no_token_and_ok_iff {σ : Type} (recvBufLen : Nat) (init : σ)
    (processData : σ → List Char → mender_err × σ) (es : List mender_http_client_event)
    (status : Nat) (uri : String)
    (h : mender_http_client_event.connected ∉ es) :
    (mender_api_download_artifact_request uri).jwt = none
  ∧ (mender_download_artifact recvBufLen init processData
        (mender_http_client_event.connected :: es) status = mender_err.ok
      ↔ (status = 200
        ∧ mender_http_client_event.error ∉ es
        ∧ (∀ d ∈ dataChunks es, d ≠ [])
        ∧ parserAcceptsAll processData init (dataChunks es) = true)) := by
  refine ⟨rfl, ?_⟩
  have hstep : runArtifactEvents recvBufLen init processData
      (mender_http_client_event.connected :: es) none
      = runArtifactEvents recvBufLen init processData es
          (some ⟨2 * MENDER_ARTIFACT_STREAM_BLOCK_SIZE + recvBufLen, init⟩) := rfl
  have hiff := runArtifactEvents_ok_iff recvBufLen init processData es
    (2 * MENDER_ARTIFACT_STREAM_BLOCK_SIZE + recvBufLen) init h
  by_cases hr : runArtifactEvents recvBufLen init processData es
      (some ⟨2 * MENDER_ARTIFACT_STREAM_BLOCK_SIZE + recvBufLen, init⟩) = mender_err.ok
  · have hld : mender_download_artifact recvBufLen init processData
        (mender_http_client_event.connected :: es) status
        = (if status = 200 then mender_err.ok else mender_err.fail) := by
      unfold mender_download_artifact mender_http_artifact_download
      rw [hstep]
      simp [hr]
    rw [hld]
    have hRHS := hiff.mp hr
    by_cases hs : status = 200
    · rw [if_pos hs]
      exact iff_of_true rfl ⟨hs, hRHS⟩
    · rw [if_neg hs]
      exact iff_of_false (fun hx => absurd hx (by decide)) (fun hx => hs hx.1)
  · have hld : mender_download_artifact recvBufLen init processData
        (mender_http_client_event.connected :: es) status
        = runArtifactEvents recvBufLen init processData es
            (some ⟨2 * MENDER_ARTIFACT_STREAM_BLOCK_SIZE + recvBufLen, init⟩) := by
      unfold mender_download_artifact mender_http_artifact_download
      rw [hstep]
      simp [hr]
    rw [hld, hiff]
    constructor
    · intro hA
      exact absurd (hiff.mpr hA) hr
    · rintro ⟨-, hA⟩
      exact hA

/-- Witness for C6: a one-chunk download with an always-accepting parser and
status 200 succeeds. -/
theorem C6_download_no_token_and_ok_iff_witness :
    mender_download_artifact 64 () (fun (s : Unit) (_ : List Char) => (mender_err.ok, s))
      [mender_http_client_event.connected,
       mender_http_client_event.dataReceived ['x'],
       mender_http_client_event.disconnected] 200 = mender_err.ok := by
  have h := C6_download_no_token_and_ok_iff 64 ()
    (fun (s : Unit) (_ : List Char) => (mender_err.ok, s))
    [mender_http_client_event.dataReceived ['x'], mender_http_client_event.disconnected]
    200 "https://a/x" (by decide)
  exact h.2.mpr ⟨rfl, by decide, by decide, by decide⟩
